import Mathlib

/-!
Verification of the `dodgy_3d` velocity-obstacle avoidance crate
(`crates/dodgy_3d/src/lib.rs`) against its natural-language specification.

The Rust code works on `glam::Vec3` (three `f32` components); we embed it in
exact real arithmetic with a three-component `Vec3` structure over `ℝ`.
`f32` division by zero yielding non-finite values is modelled through the
explicit zero-tests the code itself performs (`normalize_or_zero`,
`length_recip().is_finite()`), which in exact arithmetic are tests against the
zero vector.

The crate's `linear_programming` and `simulator` modules are not part of the
sources under verification; the solver (`solve_linear_program`) and
`Plane.signed_distance_to_plane` are modelled from the specification text and
are marked as such in their doc comments.

The single random draw in the degenerate colliding branch
(`rand::random::<f32>()`, uniform on `[0,1)`) is modelled by passing the drawn
numbers as explicit arguments: `rand : ℝ × ℝ` is the pair (z draw, longitude
draw) for one neighbour, and the top-level call receives a stream
`rng : ℕ → ℝ × ℝ` supplying the draws for each neighbour in order.
-/

open Classical

/-- Embedding of `glam::Vec3`: three real components. -/
structure Vec3 where
  x : ℝ
  y : ℝ
  z : ℝ

namespace Vec3

def zero : Vec3 := ⟨0, 0, 0⟩

instance : Zero Vec3 := ⟨Vec3.zero⟩

noncomputable instance : Add Vec3 := ⟨fun a b => ⟨a.x + b.x, a.y + b.y, a.z + b.z⟩⟩

noncomputable instance : Sub Vec3 := ⟨fun a b => ⟨a.x - b.x, a.y - b.y, a.z - b.z⟩⟩

noncomputable instance : SMul ℝ Vec3 := ⟨fun s v => ⟨s * v.x, s * v.y, s * v.z⟩⟩

/-- Componentwise division by a scalar, as in `glam`'s `Div<f32> for Vec3`. -/
noncomputable def divScalar (v : Vec3) (s : ℝ) : Vec3 := ⟨v.x / s, v.y / s, v.z / s⟩

/-- Embedding of `Vec3::dot`. -/
noncomputable def dot (a b : Vec3) : ℝ := a.x * b.x + a.y * b.y + a.z * b.z

/-- Embedding of `Vec3::cross`. -/
noncomputable def cross (a b : Vec3) : Vec3 :=
  ⟨a.y * b.z - a.z * b.y, a.z * b.x - a.x * b.z, a.x * b.y - a.y * b.x⟩

/-- Embedding of `Vec3::length_squared`. -/
noncomputable def length_squared (v : Vec3) : ℝ := v.dot v

/-- Embedding of `Vec3::length`. -/
noncomputable def length (v : Vec3) : ℝ := Real.sqrt v.length_squared

/-- Embedding of `Vec3::length_recip`: the reciprocal of the length.  (In `f32` this is
`+∞` for the zero vector; every use in the code guards with a positivity /
finiteness test which in exact arithmetic is `0 < length`.) -/
noncomputable def length_recip (v : Vec3) : ℝ := v.length⁻¹

/-- Embedding of `glam`'s `Vec3::normalize_or_zero`: multiply by the reciprocal length when
that is finite and positive (in exact arithmetic: when the length is
positive), otherwise return the zero vector. -/
noncomputable def normalize_or_zero (v : Vec3) : Vec3 :=
  if 0 < v.length_recip then v.length_recip • v else 0

end Vec3

/-- Embedding of `Plane` from the crate's `linear_programming` module (module not among the
verified sources).  Modelled from the spec: a point (3-vector) and a normal
(3-vector); the half-space of vectors `v` with `(v − point)·normal ≤ 0` is
feasible. -/
structure Plane where
  point : Vec3
  normal : Vec3

/-- Modelled from the spec: `Plane::signed_distance_to_plane` of the missing
`linear_programming` module.  For a unit normal the signed distance of `v` to
the plane is `(v − point)·normal`, the quantity the spec's half-space
condition `(v − point)·normal ≤ 0` constrains. -/
noncomputable def Plane.signed_distance_to_plane (p : Plane) (v : Vec3) : ℝ :=
  (v - p.point).dot p.normal

/-- Embedding of `Agent` from `lib.rs`. -/
structure Agent where
  position : Vec3
  velocity : Vec3
  radius : ℝ
  avoidance_responsibility : ℝ

/-- Embedding of `AvoidanceOptions` from `lib.rs`. -/
structure AvoidanceOptions where
  time_horizon : ℝ

/-- The three values the branches of `Agent::get_plane_for_neighbour` assign
(`vo_normal`, `relative_velocity_projected_to_vo`, `inside_vo`), before the
responsibility weighting assembles the final `Plane`. -/
structure VoConstruction where
  vo_normal : Vec3
  relative_velocity_projected_to_vo : Vec3
  inside_vo : Prop

/-- The branch structure of `Agent::get_plane_for_neighbour` (lib.rs lines
107–254): computes `vo_normal`, `relative_velocity_projected_to_vo` and
`inside_vo`.  `rand` carries the two `rand::random::<f32>()` draws (z,
longitude) used only in the degenerate colliding sub-branch. -/
noncomputable def voConstruction (self neighbour : Agent) (time_horizon time_step : ℝ)
    (rand : ℝ × ℝ) : VoConstruction :=
  let relative_neighbour_position := neighbour.position - self.position
  let relative_agent_velocity := self.velocity - neighbour.velocity
  let distance_squared := relative_neighbour_position.length_squared
  let sum_radius := self.radius + neighbour.radius
  let sum_radius_squared := sum_radius * sum_radius
  if sum_radius_squared < distance_squared then
    -- No collision: project onto the cut-off sphere or the cut-off shadow.
    let cutoff_sphere_center := relative_neighbour_position.divScalar time_horizon
    let cutoff_sphere_center_to_relative_velocity :=
      relative_agent_velocity - cutoff_sphere_center
    let cutoff_sphere_center_to_relative_velocity_length_squared :=
      cutoff_sphere_center_to_relative_velocity.length_squared
    let dot := cutoff_sphere_center_to_relative_velocity.dot relative_neighbour_position
    if dot < 0 ∧
        sum_radius_squared * cutoff_sphere_center_to_relative_velocity_length_squared
          < dot * dot then
      -- Project onto the cut-off sphere.
      let cutoff_sphere_radius := sum_radius / time_horizon
      let vo_normal := cutoff_sphere_center_to_relative_velocity.normalize_or_zero
      { vo_normal := vo_normal
        relative_velocity_projected_to_vo :=
          cutoff_sphere_radius • vo_normal + cutoff_sphere_center
        inside_vo := cutoff_sphere_center_to_relative_velocity_length_squared
          < cutoff_sphere_radius * cutoff_sphere_radius }
    else
      -- Project onto the shadow (cone).
      let tangent_ring_triangle_leg_squared := distance_squared - sum_radius_squared
      let squared_distance_between_rays :=
        (relative_neighbour_position.cross relative_agent_velocity).length_squared
      let a := relative_neighbour_position.length_squared
      let b := relative_neighbour_position.dot relative_agent_velocity
      let c := relative_agent_velocity.length_squared
        - squared_distance_between_rays / tangent_ring_triangle_leg_squared
      let t := (-b - Real.sqrt (b * b - a * c)) / a
      let vo_normal :=
        (relative_agent_velocity + t • relative_neighbour_position).normalize_or_zero
      let distance_to_plane :=
        (Plane.mk Vec3.zero vo_normal).signed_distance_to_plane relative_agent_velocity
      { vo_normal := vo_normal
        relative_velocity_projected_to_vo :=
          relative_agent_velocity - distance_to_plane • vo_normal
        inside_vo := distance_to_plane < 0 }
  else
    -- Collision: project onto the cut-off sphere at time `time_step`.
    let cutoff_sphere_center := relative_neighbour_position.divScalar time_step
    let cutoff_sphere_radius := sum_radius / time_step
    let vo_normal :=
      let velocity_from_circle_center := relative_agent_velocity - cutoff_sphere_center
      let recip := velocity_from_circle_center.length_recip
      if 0 < recip then recip • velocity_from_circle_center
      else
        -- Degenerate: pick a random direction from the two uniform draws.
        let z := rand.1
        let longitude := rand.2
        let z_normalize := Real.sqrt (1 - z * z)
        Vec3.mk (Real.cos longitude * z_normalize) (Real.sin longitude * z_normalize) z
    { vo_normal := vo_normal
      relative_velocity_projected_to_vo :=
        cutoff_sphere_radius • vo_normal + cutoff_sphere_center
      inside_vo := True }

/-- Embedding of `Agent::get_plane_for_neighbour` (lib.rs lines 92–268): responsibility
weighting and plane assembly around `voConstruction`. -/
noncomputable def get_plane_for_neighbour (self neighbour : Agent)
    (time_horizon time_step : ℝ) (rand : ℝ × ℝ) : Plane :=
  let vo := voConstruction self neighbour time_horizon time_step rand
  let relative_agent_velocity := self.velocity - neighbour.velocity
  let u := vo.relative_velocity_projected_to_vo - relative_agent_velocity
  let responsibility :=
    if vo.inside_vo then
      self.avoidance_responsibility
        / (self.avoidance_responsibility + neighbour.avoidance_responsibility)
    else 1
  Plane.mk (self.velocity + responsibility • u) vo.vo_normal

/-- Modelled from the spec: a velocity `v` satisfies a plane's half-space
constraint when `(v − point)·normal ≤ 0`. -/
noncomputable def satisfiesPlane (v : Vec3) (p : Plane) : Prop :=
  (v - p.point).dot p.normal ≤ 0

/-- Modelled from the spec: membership in the max-speed sphere. -/
noncomputable def inSpeedSphere (v : Vec3) (r : ℝ) : Prop :=
  v.length_squared ≤ r * r

/-- Modelled from the spec: a velocity lies exactly on a plane. -/
noncomputable def onPlane (v : Vec3) (p : Plane) : Prop :=
  (v - p.point).dot p.normal = 0

/-- Modelled from the spec: the initial candidate is the preferred velocity
clamped to the max-speed sphere (scaled down only when its magnitude exceeds
the maximum, direction unchanged). -/
noncomputable def clampToSphere (pref : Vec3) (max_speed : ℝ) : Vec3 :=
  if max_speed * max_speed < pref.length_squared then max_speed • pref.normalize_or_zero
  else pref

/-- Modelled from the spec: the feasible set of the reduced solve entered when
the running candidate violates plane `p` — points on `p`, inside the speed
sphere, satisfying every previously committed plane. -/
noncomputable def reducedFeasible (prev : List Plane) (p : Plane) (r : ℝ) (v : Vec3) : Prop :=
  inSpeedSphere v r ∧ onPlane v p ∧ ∀ q ∈ prev, satisfiesPlane v q

/-- Modelled from the spec: a plane's violation by `v` (positive part of the
signed distance is what the relaxation minimizes; using the raw signed
distance gives the same minimizers ordering for the worst violator). -/
noncomputable def planeViolation (v : Vec3) (p : Plane) : ℝ :=
  (v - p.point).dot p.normal

/-- Modelled from the spec: the worst violation of `v` among a list of planes
(at least `0`, the no-violation level). -/
noncomputable def worstViolation (ps : List Plane) (v : Vec3) : ℝ :=
  (ps.map (planeViolation v)).foldr max 0

/-- Modelled from the spec: the relaxation pass — a velocity inside the speed
sphere minimizing the worst violation among the planes up to and including the
failing one.  The fallback argument (the running candidate) is returned in the
mathematically vacuous case that no minimizer exists. -/
noncomputable def relaxedSolve (ps : List Plane) (r : ℝ) (fallback : Vec3) : Vec3 :=
  if h : ∃ v, inSpeedSphere v r ∧
      ∀ w, inSpeedSphere w r → worstViolation ps v ≤ worstViolation ps w then
    h.choose
  else fallback

/-- Modelled from the spec: one step of the incremental constrained projection.
State: running candidate, planes committed so far (in priority order), and
whether the relaxation pass has already produced the final velocity. -/
noncomputable def solveStep (r : ℝ) (pref : Vec3) (st : Vec3 × List Plane × Bool)
    (p : Plane) : Vec3 × List Plane × Bool :=
  if st.2.2 then (st.1, st.2.1 ++ [p], true)
  else if satisfiesPlane st.1 p then (st.1, st.2.1 ++ [p], false)
  else if h : ∃ v, reducedFeasible st.2.1 p r v ∧
      ∀ w, reducedFeasible st.2.1 p r w →
        (v - pref).length_squared ≤ (w - pref).length_squared then
    (h.choose, st.2.1 ++ [p], false)
  else (relaxedSolve (st.2.1 ++ [p]) r st.1, st.2.1 ++ [p], true)

/-- Modelled from the spec: `solve_linear_program` of the crate's missing
`linear_programming` module — process the planes in priority order starting
from the clamped preferred velocity. -/
noncomputable def solve_linear_program (planes : List Plane) (max_speed : ℝ)
    (preferred_velocity : Vec3) : Vec3 :=
  (planes.foldl (solveStep max_speed preferred_velocity)
    (clampToSphere preferred_velocity max_speed, [], false)).1

/-- Embedding of `Agent::compute_avoiding_velocity` (lib.rs lines 66–88).  The
`assert!(time_step > 0.0)` abort is modelled as `none`; on `some` the planes
are built per neighbour in order and handed to the solver.  `rng n` supplies
the random draws for neighbour number `n`. -/
noncomputable def compute_avoiding_velocity (self : Agent) (neighbours : List Agent)
    (preferred_velocity : Vec3) (max_speed time_step : ℝ)
    (avoidance_options : AvoidanceOptions) (rng : ℕ → ℝ × ℝ) : Option Vec3 :=
  if 0 < time_step then
    some (solve_linear_program
      (neighbours.enum.map fun ni =>
        get_plane_for_neighbour self ni.2 avoidance_options.time_horizon time_step
          (rng ni.1))
      max_speed preferred_velocity)
  else none

namespace Vec3

@[simp] theorem add_x (a b : Vec3) : (a + b).x = a.x + b.x := rfl
@[simp] theorem add_y (a b : Vec3) : (a + b).y = a.y + b.y := rfl
@[simp] theorem add_z (a b : Vec3) : (a + b).z = a.z + b.z := rfl
@[simp] theorem sub_x (a b : Vec3) : (a - b).x = a.x - b.x := rfl
@[simp] theorem sub_y (a b : Vec3) : (a - b).y = a.y - b.y := rfl
@[simp] theorem sub_z (a b : Vec3) : (a - b).z = a.z - b.z := rfl
@[simp] theorem smul_x (s : ℝ) (v : Vec3) : (s • v).x = s * v.x := rfl
@[simp] theorem smul_y (s : ℝ) (v : Vec3) : (s • v).y = s * v.y := rfl
@[simp] theorem smul_z (s : ℝ) (v : Vec3) : (s • v).z = s * v.z := rfl
@[simp] theorem zero_x : (0 : Vec3).x = 0 := rfl
@[simp] theorem zero_y : (0 : Vec3).y = 0 := rfl
@[simp] theorem zero_z : (0 : Vec3).z = 0 := rfl
@[simp] theorem divScalar_x (v : Vec3) (s : ℝ) : (v.divScalar s).x = v.x / s := rfl
@[simp] theorem divScalar_y (v : Vec3) (s : ℝ) : (v.divScalar s).y = v.y / s := rfl
@[simp] theorem divScalar_z (v : Vec3) (s : ℝ) : (v.divScalar s).z = v.z / s := rfl

theorem length_squared_nonneg (v : Vec3) : 0 ≤ v.length_squared := by
  unfold length_squared dot
  nlinarith [sq_nonneg v.x, sq_nonneg v.y, sq_nonneg v.z]

theorem length_nonneg (v : Vec3) : 0 ≤ v.length := Real.sqrt_nonneg _

theorem length_mul_self (v : Vec3) : v.length * v.length = v.length_squared :=
  Real.mul_self_sqrt v.length_squared_nonneg

theorem length_pos_iff (v : Vec3) : 0 < v.length ↔ 0 < v.length_squared :=
  Real.sqrt_pos

theorem length_squared_eq_zero_iff (v : Vec3) : v.length_squared = 0 ↔ v = 0 := by
  constructor
  · intro h
    unfold length_squared dot at h
    have hx : v.x = 0 := by nlinarith [sq_nonneg v.x, sq_nonneg v.y, sq_nonneg v.z]
    have hy : v.y = 0 := by nlinarith [sq_nonneg v.x, sq_nonneg v.y, sq_nonneg v.z]
    have hz : v.z = 0 := by nlinarith [sq_nonneg v.x, sq_nonneg v.y, sq_nonneg v.z]
    cases v
    show Vec3.mk _ _ _ = Vec3.mk 0 0 0
    simp only [Vec3.mk.injEq]
    exact ⟨hx, hy, hz⟩
  · rintro rfl
    unfold length_squared dot
    norm_num

theorem length_squared_smul (s : ℝ) (v : Vec3) :
    (s • v).length_squared = s * s * v.length_squared := by
  unfold length_squared dot
  simp only [smul_x, smul_y, smul_z]
  ring

theorem length_smul (s : ℝ) (v : Vec3) : (s • v).length = |s| * v.length := by
  unfold length
  rw [length_squared_smul, show s * s * v.length_squared = s ^ 2 * v.length_squared by ring,
    Real.sqrt_mul (sq_nonneg s), Real.sqrt_sq_eq_abs]

theorem length_recip_pos_iff (v : Vec3) : 0 < v.length_recip ↔ 0 < v.length := by
  unfold length_recip
  exact inv_pos

theorem length_normalize_or_zero (v : Vec3) (h : 0 < v.length_squared) :
    v.normalize_or_zero.length = 1 := by
  have hl : 0 < v.length := (length_pos_iff v).2 h
  unfold normalize_or_zero
  rw [if_pos ((length_recip_pos_iff v).2 hl), length_smul]
  unfold length_recip
  rw [abs_of_pos (inv_pos.2 hl), inv_mul_cancel₀ hl.ne']

theorem normalize_or_zero_of_length_squared_eq_zero (v : Vec3)
    (h : v.length_squared = 0) : v.normalize_or_zero = 0 := by
  unfold normalize_or_zero
  rw [if_neg]
  rw [length_recip_pos_iff, length_pos_iff]
  simp [h]

theorem normalize_or_zero_eq_inv_smul (v : Vec3) (h : 0 < v.length_squared) :
    v.normalize_or_zero = v.length⁻¹ • v := by
  have hl : 0 < v.length := (length_pos_iff v).2 h
  unfold normalize_or_zero
  rw [if_pos ((length_recip_pos_iff v).2 hl)]
  rfl

end Vec3

theorem length_le_of_inSpeedSphere (v : Vec3) (r : ℝ) (hr : 0 ≤ r)
    (h : inSpeedSphere v r) : v.length ≤ r := by
  unfold inSpeedSphere at h
  have h2 : v.length ≤ Real.sqrt (r * r) := by
    unfold Vec3.length
    exact Real.sqrt_le_sqrt h
  rwa [Real.sqrt_mul_self hr] at h2

theorem clampToSphere_inSpeedSphere (pref : Vec3) (ms : ℝ) (h : 0 ≤ ms) :
    inSpeedSphere (clampToSphere pref ms) ms := by
  unfold clampToSphere inSpeedSphere
  split_ifs with hc
  · have hp : 0 < pref.length_squared := lt_of_le_of_lt (mul_self_nonneg ms) hc
    rw [Vec3.length_squared_smul]
    have h1 : pref.normalize_or_zero.length_squared = 1 := by
      rw [← Vec3.length_mul_self, Vec3.length_normalize_or_zero pref hp]
      norm_num
    rw [h1]
    nlinarith
  · linarith [not_lt.1 hc]

theorem solveStep_inSpeedSphere (r : ℝ) (pref : Vec3) (st : Vec3 × List Plane × Bool)
    (p : Plane) (h : inSpeedSphere st.1 r) :
    inSpeedSphere (solveStep r pref st p).1 r := by
  unfold solveStep
  split_ifs with h1 h2 h3
  · exact h
  · exact h
  · have hspec := h3.choose_spec.1
    unfold reducedFeasible at hspec
    exact hspec.1
  · unfold relaxedSolve
    split_ifs with h4
    · exact h4.choose_spec.1
    · exact h

theorem foldl_solveStep_inSpeedSphere (r : ℝ) (pref : Vec3) (planes : List Plane)
    (st : Vec3 × List Plane × Bool) (h : inSpeedSphere st.1 r) :
    inSpeedSphere (planes.foldl (solveStep r pref) st).1 r := by
  induction planes generalizing st with
  | nil => simpa using h
  | cons p ps ih =>
    simp only [List.foldl_cons]
    exact ih _ (solveStep_inSpeedSphere r pref st p h)

theorem solve_linear_program_inSpeedSphere (planes : List Plane) (ms : ℝ)
    (pref : Vec3) (h : 0 ≤ ms) :
    inSpeedSphere (solve_linear_program planes ms pref) ms := by
  unfold solve_linear_program
  exact foldl_solveStep_inSpeedSphere ms pref planes _ (clampToSphere_inSpeedSphere pref ms h)

theorem caseB_vo_normal_length (self neighbour : Agent) (th ts : ℝ) (rand : ℝ × ℝ)
    (hcol : ¬ (self.radius + neighbour.radius) * (self.radius + neighbour.radius) <
      (neighbour.position - self.position).length_squared)
    (hz0 : 0 ≤ rand.1) (hz1 : rand.1 ≤ 1) :
    (voConstruction self neighbour th ts rand).vo_normal.length = 1 := by
  simp only [voConstruction]
  rw [if_neg hcol]
  split_ifs with hrec
  · rw [Vec3.length_smul]
    have hl : 0 < (self.velocity - neighbour.velocity -
        (neighbour.position - self.position).divScalar ts).length :=
      (Vec3.length_recip_pos_iff _).1 hrec
    unfold Vec3.length_recip
    rw [abs_of_pos (inv_pos.2 hl), inv_mul_cancel₀ hl.ne']
  · have hs : Real.sqrt (1 - rand.1 * rand.1) * Real.sqrt (1 - rand.1 * rand.1)
        = 1 - rand.1 * rand.1 := Real.mul_self_sqrt (by nlinarith)
    have hsc : Real.sin rand.2 ^ 2 + Real.cos rand.2 ^ 2 = 1 :=
      Real.sin_sq_add_cos_sq rand.2
    unfold Vec3.length
    rw [show (Vec3.mk (Real.cos rand.2 * Real.sqrt (1 - rand.1 * rand.1))
        (Real.sin rand.2 * Real.sqrt (1 - rand.1 * rand.1)) rand.1).length_squared = 1 by
      unfold Vec3.length_squared Vec3.dot
      linear_combination (Real.sin rand.2 ^ 2 + Real.cos rand.2 ^ 2) * hs
        + (1 - rand.1 * rand.1) * hsc]
    exact Real.sqrt_one

@[simp] theorem Vec3.zero_dot (v : Vec3) : Vec3.dot 0 v = 0 := by
  unfold Vec3.dot
  norm_num

theorem Vec3.sub_eq_zero_of_eq (a b : Vec3) (h : a = b) : a - b = 0 := by
  subst h
  show Vec3.mk _ _ _ = Vec3.mk 0 0 0
  simp

theorem voConstruction_sphere_eq (self neighbour : Agent) (th ts : ℝ) (rand : ℝ × ℝ)
    (p v : Vec3) (R : ℝ)
    (hp : p = neighbour.position - self.position)
    (hv : v = self.velocity - neighbour.velocity)
    (hR : R = self.radius + neighbour.radius)
    (hD : R * R < p.length_squared)
    (hdot : (v - p.divScalar th).dot p < 0)
    (hring : R * R * (v - p.divScalar th).length_squared <
      (v - p.divScalar th).dot p * (v - p.divScalar th).dot p) :
    voConstruction self neighbour th ts rand =
      { vo_normal := (v - p.divScalar th).normalize_or_zero
        relative_velocity_projected_to_vo :=
          (R / th) • (v - p.divScalar th).normalize_or_zero + p.divScalar th
        inside_vo := (v - p.divScalar th).length_squared < (R / th) * (R / th) } := by
  subst hp hv hR
  simp only [voConstruction]
  rw [if_pos hD, if_pos ⟨hdot, hring⟩]

theorem voConstruction_cone_eq (self neighbour : Agent) (th ts : ℝ) (rand : ℝ × ℝ)
    (p v : Vec3) (R t : ℝ)
    (hp : p = neighbour.position - self.position)
    (hv : v = self.velocity - neighbour.velocity)
    (hR : R = self.radius + neighbour.radius)
    (ht : t = (-(p.dot v) - Real.sqrt (p.dot v * p.dot v -
      p.length_squared * (v.length_squared -
        (p.cross v).length_squared / (p.length_squared - R * R)))) / p.length_squared)
    (hD : R * R < p.length_squared)
    (hnring : ¬ ((v - p.divScalar th).dot p < 0 ∧
      R * R * (v - p.divScalar th).length_squared <
        (v - p.divScalar th).dot p * (v - p.divScalar th).dot p)) :
    voConstruction self neighbour th ts rand =
      { vo_normal := (v + t • p).normalize_or_zero
        relative_velocity_projected_to_vo := v -
          ((Plane.mk Vec3.zero (v + t • p).normalize_or_zero).signed_distance_to_plane v) •
            (v + t • p).normalize_or_zero
        inside_vo :=
          (Plane.mk Vec3.zero (v + t • p).normalize_or_zero).signed_distance_to_plane v
            < 0 } := by
  subst hp hv hR ht
  simp only [voConstruction]
  rw [if_pos hD, if_neg hnring]

theorem voConstruction_caseB_eq (self neighbour : Agent) (th ts : ℝ) (rand : ℝ × ℝ)
    (p v : Vec3) (R : ℝ)
    (hp : p = neighbour.position - self.position)
    (hv : v = self.velocity - neighbour.velocity)
    (hR : R = self.radius + neighbour.radius)
    (hD : ¬ R * R < p.length_squared) :
    voConstruction self neighbour th ts rand =
      { vo_normal := if 0 < (v - p.divScalar ts).length_recip then
            (v - p.divScalar ts).length_recip • (v - p.divScalar ts)
          else Vec3.mk (Real.cos rand.2 * Real.sqrt (1 - rand.1 * rand.1))
            (Real.sin rand.2 * Real.sqrt (1 - rand.1 * rand.1)) rand.1
        relative_velocity_projected_to_vo :=
          (R / ts) • (if 0 < (v - p.divScalar ts).length_recip then
            (v - p.divScalar ts).length_recip • (v - p.divScalar ts)
          else Vec3.mk (Real.cos rand.2 * Real.sqrt (1 - rand.1 * rand.1))
            (Real.sin rand.2 * Real.sqrt (1 - rand.1 * rand.1)) rand.1) + p.divScalar ts
        inside_vo := True } := by
  subst hp hv hR
  simp only [voConstruction]
  rw [if_neg hD]

/-- C2: `compute_avoiding_velocity` aborts (the `assert!` in the source,
modelled as `none`) exactly when `time_step ≤ 0`; the check precedes the plane
construction and the solve, and for every positive `time_step` the call
returns a velocity. -/
theorem C2_fails_fast_iff_nonpositive_time_step (self : Agent) (neighbours : List Agent)
    (pref : Vec3) (ms ts : ℝ) (opts : AvoidanceOptions) (rng : ℕ → ℝ × ℝ) :
    compute_avoiding_velocity self neighbours pref ms ts opts rng = none ↔ ts ≤ 0 := by
  unfold compute_avoiding_velocity
  split_ifs with h
  · exact iff_of_false (by simp) (by linarith)
  · exact iff_of_true rfl (not_lt.1 h)

/-- C8: the emitted plane is `point = self.velocity + responsibility · u` with
`u = projected − relative velocity` and `responsibility` the avoidance split
when inside the obstacle and `1` otherwise, and its normal is the obstacle
normal. -/
theorem C8_plane_point_and_normal (self neighbour : Agent) (th ts : ℝ)
    (rand : ℝ × ℝ) :
    get_plane_for_neighbour self neighbour th ts rand = Plane.mk
      (self.velocity +
        (if (voConstruction self neighbour th ts rand).inside_vo then
          self.avoidance_responsibility /
            (self.avoidance_responsibility + neighbour.avoidance_responsibility)
        else 1) •
        ((voConstruction self neighbour th ts rand).relative_velocity_projected_to_vo -
          (self.velocity - neighbour.velocity)))
      (voConstruction self neighbour th ts rand).vo_normal := rfl

/-- C10: in the tangent-cone branch, under `D² > R²`, the discriminant
`b² − a·c` equals `|p × v|² · R² / (D² − R²)` and is therefore non-negative,
so the square root in `t` is taken of a non-negative number. -/
theorem C10_discriminant_nonneg (self neighbour : Agent) (p v : Vec3) (R a b c : ℝ)
    (hp : p = neighbour.position - self.position)
    (hv : v = self.velocity - neighbour.velocity)
    (hR : R = self.radius + neighbour.radius)
    (ha : a = p.length_squared)
    (hb : b = p.dot v)
    (hc : c = v.length_squared -
      (p.cross v).length_squared / (p.length_squared - R * R))
    (hD : R * R < p.length_squared) :
    b * b - a * c =
      (p.cross v).length_squared * (R * R) / (p.length_squared - R * R) ∧
    0 ≤ b * b - a * c := by
  subst ha hb hc
  have hden : 0 < p.length_squared - R * R := by linarith
  have lagrange : (p.cross v).length_squared =
      p.length_squared * v.length_squared - p.dot v * p.dot v := by
    unfold Vec3.length_squared Vec3.dot Vec3.cross
    ring
  have hmain : p.dot v * p.dot v - p.length_squared * (v.length_squared -
      (p.cross v).length_squared / (p.length_squared - R * R)) =
      (p.cross v).length_squared * (R * R) / (p.length_squared - R * R) := by
    rw [lagrange]
    field_simp
    ring
  refine ⟨hmain, ?_⟩
  rw [hmain]
  exact div_nonneg (mul_nonneg (Vec3.length_squared_nonneg _) (mul_self_nonneg R)) hden.le

/-- Witness for C10 at a concrete non-overlapping pair. -/
theorem C10_discriminant_nonneg_witness :
    ((1:ℝ)/4 + 1/4) * ((1:ℝ)/4 + 1/4) <
      ((Vec3.mk 1 0 0) - (Vec3.mk 0 0 0)).length_squared ∧
    (((Vec3.mk 1 0 0) - (Vec3.mk 0 0 0)).dot ((Vec3.mk 0 1 0) - (Vec3.mk 0 0 0)) *
        ((Vec3.mk 1 0 0) - (Vec3.mk 0 0 0)).dot ((Vec3.mk 0 1 0) - (Vec3.mk 0 0 0)) -
      ((Vec3.mk 1 0 0) - (Vec3.mk 0 0 0)).length_squared *
        (((Vec3.mk 0 1 0) - (Vec3.mk 0 0 0)).length_squared -
          (((Vec3.mk 1 0 0) - (Vec3.mk 0 0 0)).cross
            ((Vec3.mk 0 1 0) - (Vec3.mk 0 0 0))).length_squared /
          (((Vec3.mk 1 0 0) - (Vec3.mk 0 0 0)).length_squared -
            ((1:ℝ)/4 + 1/4) * ((1:ℝ)/4 + 1/4))) =
      (((Vec3.mk 1 0 0) - (Vec3.mk 0 0 0)).cross
          ((Vec3.mk 0 1 0) - (Vec3.mk 0 0 0))).length_squared *
        (((1:ℝ)/4 + 1/4) * ((1:ℝ)/4 + 1/4)) /
        (((Vec3.mk 1 0 0) - (Vec3.mk 0 0 0)).length_squared -
          ((1:ℝ)/4 + 1/4) * ((1:ℝ)/4 + 1/4)) ∧
      0 ≤ ((Vec3.mk 1 0 0) - (Vec3.mk 0 0 0)).dot ((Vec3.mk 0 1 0) - (Vec3.mk 0 0 0)) *
          ((Vec3.mk 1 0 0) - (Vec3.mk 0 0 0)).dot ((Vec3.mk 0 1 0) - (Vec3.mk 0 0 0)) -
        ((Vec3.mk 1 0 0) - (Vec3.mk 0 0 0)).length_squared *
          (((Vec3.mk 0 1 0) - (Vec3.mk 0 0 0)).length_squared -
            (((Vec3.mk 1 0 0) - (Vec3.mk 0 0 0)).cross
              ((Vec3.mk 0 1 0) - (Vec3.mk 0 0 0))).length_squared /
            (((Vec3.mk 1 0 0) - (Vec3.mk 0 0 0)).length_squared -
              ((1:ℝ)/4 + 1/4) * ((1:ℝ)/4 + 1/4)))) := by
  constructor
  · unfold Vec3.length_squared Vec3.dot
    simp only [Vec3.sub_x, Vec3.sub_y, Vec3.sub_z]
    norm_num
  · exact C10_discriminant_nonneg
      (Agent.mk (Vec3.mk 0 0 0) (Vec3.mk 0 1 0) (1/4) 1)
      (Agent.mk (Vec3.mk 1 0 0) (Vec3.mk 0 0 0) (1/4) 1)
      ((Vec3.mk 1 0 0) - (Vec3.mk 0 0 0)) ((Vec3.mk 0 1 0) - (Vec3.mk 0 0 0))
      ((1:ℝ)/4 + 1/4) _ _ _ rfl rfl rfl rfl rfl rfl
      (by unfold Vec3.length_squared Vec3.dot
          simp only [Vec3.sub_x, Vec3.sub_y, Vec3.sub_z]
          norm_num)

/-- C5: in the non-overlapping case, when `w·p < 0` and `(w·p)² > R²·|w|²`,
the builder projects onto the cut-off sphere: the normal is `w` normalized,
the projected point is `normal·(R/time_horizon) + center`, and the inside
flag holds iff `|w|² < (R/time_horizon)²`. -/
theorem C5_sphere_projection (self neighbour : Agent) (th ts : ℝ) (rand : ℝ × ℝ)
    (p v center w : Vec3) (R : ℝ)
    (hp : p = neighbour.position - self.position)
    (hv : v = self.velocity - neighbour.velocity)
    (hR : R = self.radius + neighbour.radius)
    (hcenter : center = p.divScalar th)
    (hw : w = v - center)
    (hD : R * R < p.length_squared)
    (hdot : w.dot p < 0)
    (hring : R * R * w.length_squared < w.dot p * w.dot p) :
    (voConstruction self neighbour th ts rand).vo_normal = w.length⁻¹ • w ∧
    (voConstruction self neighbour th ts rand).relative_velocity_projected_to_vo =
      (R / th) • (w.length⁻¹ • w) + center ∧
    ((voConstruction self neighbour th ts rand).inside_vo ↔
      w.length_squared < (R / th) * (R / th)) := by
  have hw2 : 0 < w.length_squared := by
    rcases lt_or_eq_of_le (Vec3.length_squared_nonneg w) with h | h
    · exact h
    · exfalso
      have h0 : w = 0 := (Vec3.length_squared_eq_zero_iff w).1 h.symm
      rw [h0] at hdot
      simp at hdot
  have hnz := Vec3.normalize_or_zero_eq_inv_smul w hw2
  subst hcenter hw
  rw [voConstruction_sphere_eq self neighbour th ts rand p v R hp hv hR hD hdot hring]
  refine ⟨hnz, ?_, Iff.rfl⟩
  show (R / th) • (v - p.divScalar th).normalize_or_zero + p.divScalar th = _
  rw [hnz]

/-- Witness for C5 at a concrete pair for which the sphere test fires. -/
theorem C5_sphere_projection_witness :
    ((1:ℝ)/4 + 1/4) * ((1:ℝ)/4 + 1/4) <
      ((Vec3.mk 1 0 0) - (Vec3.mk 0 0 0)).length_squared ∧
    (((Vec3.mk 0 0 0) - (Vec3.mk 0 0 0)) -
        ((Vec3.mk 1 0 0) - (Vec3.mk 0 0 0)).divScalar 1).dot
      ((Vec3.mk 1 0 0) - (Vec3.mk 0 0 0)) < 0 ∧
    (voConstruction (Agent.mk (Vec3.mk 0 0 0) (Vec3.mk 0 0 0) (1/4) 1)
        (Agent.mk (Vec3.mk 1 0 0) (Vec3.mk 0 0 0) (1/4) 1) 1 1 (0, 0)).vo_normal =
      (((Vec3.mk 0 0 0) - (Vec3.mk 0 0 0)) -
          ((Vec3.mk 1 0 0) - (Vec3.mk 0 0 0)).divScalar 1).length⁻¹ •
        (((Vec3.mk 0 0 0) - (Vec3.mk 0 0 0)) -
          ((Vec3.mk 1 0 0) - (Vec3.mk 0 0 0)).divScalar 1) := by
  refine ⟨?_, ?_, ?_⟩
  · unfold Vec3.length_squared Vec3.dot
    simp only [Vec3.sub_x, Vec3.sub_y, Vec3.sub_z]
    norm_num
  · unfold Vec3.dot
    simp only [Vec3.sub_x, Vec3.sub_y, Vec3.sub_z, Vec3.divScalar_x, Vec3.divScalar_y,
      Vec3.divScalar_z]
    norm_num
  · exact (C5_sphere_projection
      (Agent.mk (Vec3.mk 0 0 0) (Vec3.mk 0 0 0) (1/4) 1)
      (Agent.mk (Vec3.mk 1 0 0) (Vec3.mk 0 0 0) (1/4) 1) 1 1 (0, 0)
      _ _ _ _ ((1:ℝ)/4 + 1/4) rfl rfl rfl rfl rfl
      (by unfold Vec3.length_squared Vec3.dot
          simp only [Vec3.sub_x, Vec3.sub_y, Vec3.sub_z]
          norm_num)
      (by unfold Vec3.dot
          simp only [Vec3.sub_x, Vec3.sub_y, Vec3.sub_z, Vec3.divScalar_x, Vec3.divScalar_y,
            Vec3.divScalar_z]
          norm_num)
      (by unfold Vec3.length_squared Vec3.dot
          simp only [Vec3.sub_x, Vec3.sub_y, Vec3.sub_z, Vec3.divScalar_x, Vec3.divScalar_y,
            Vec3.divScalar_z]
          norm_num)).1

/-- C6: in the non-overlapping case, when the sphere-side tangent-ring test
fails, the builder projects onto the tangent cone using the negative quadratic
root `t = (−b − √(b² − a·c))/a`: the normal is the (zero-safe) normalization
of `v + t·p`, the projected point is `v` minus its signed distance to the
origin plane with that normal times the normal, and inside holds iff that
signed distance is negative. -/
theorem C6_cone_projection (self neighbour : Agent) (th ts : ℝ) (rand : ℝ × ℝ)
    (p v : Vec3) (R a b c t : ℝ)
    (hp : p = neighbour.position - self.position)
    (hv : v = self.velocity - neighbour.velocity)
    (hR : R = self.radius + neighbour.radius)
    (ha : a = p.length_squared)
    (hb : b = p.dot v)
    (hc : c = v.length_squared -
      (p.cross v).length_squared / (p.length_squared - R * R))
    (ht : t = (-b - Real.sqrt (b * b - a * c)) / a)
    (hD : R * R < p.length_squared)
    (hnring : ¬ ((v - p.divScalar th).dot p < 0 ∧
      R * R * (v - p.divScalar th).length_squared <
        (v - p.divScalar th).dot p * (v - p.divScalar th).dot p)) :
    (voConstruction self neighbour th ts rand).vo_normal =
      (v + t • p).normalize_or_zero ∧
    (voConstruction self neighbour th ts rand).relative_velocity_projected_to_vo =
      v - ((Plane.mk Vec3.zero ((v + t • p).normalize_or_zero)).signed_distance_to_plane
        v) • (v + t • p).normalize_or_zero ∧
    ((voConstruction self neighbour th ts rand).inside_vo ↔
      (Plane.mk Vec3.zero ((v + t • p).normalize_or_zero)).signed_distance_to_plane v
        < 0) := by
  subst ha hb hc ht
  rw [voConstruction_cone_eq self neighbour th ts rand p v R _ hp hv hR rfl hD hnring]
  exact ⟨rfl, rfl, Iff.rfl⟩

/-- Witness for C6 at a concrete pair for which the cone branch fires. -/
theorem C6_cone_projection_witness :
    ((1:ℝ)/4 + 1/4) * ((1:ℝ)/4 + 1/4) <
      ((Vec3.mk 1 0 0) - (Vec3.mk 0 0 0)).length_squared ∧
    ¬ (((((Vec3.mk 1 1 0) - (Vec3.mk 0 0 0)) -
          ((Vec3.mk 1 0 0) - (Vec3.mk 0 0 0)).divScalar 1).dot
        ((Vec3.mk 1 0 0) - (Vec3.mk 0 0 0)) < 0) ∧
      ((1:ℝ)/4 + 1/4) * ((1:ℝ)/4 + 1/4) *
          ((((Vec3.mk 1 1 0) - (Vec3.mk 0 0 0)) -
            ((Vec3.mk 1 0 0) - (Vec3.mk 0 0 0)).divScalar 1).length_squared) <
        ((((Vec3.mk 1 1 0) - (Vec3.mk 0 0 0)) -
            ((Vec3.mk 1 0 0) - (Vec3.mk 0 0 0)).divScalar 1).dot
          ((Vec3.mk 1 0 0) - (Vec3.mk 0 0 0))) *
        ((((Vec3.mk 1 1 0) - (Vec3.mk 0 0 0)) -
            ((Vec3.mk 1 0 0) - (Vec3.mk 0 0 0)).divScalar 1).dot
          ((Vec3.mk 1 0 0) - (Vec3.mk 0 0 0)))) ∧
    (voConstruction (Agent.mk (Vec3.mk 0 0 0) (Vec3.mk 1 1 0) (1/4) 1)
        (Agent.mk (Vec3.mk 1 0 0) (Vec3.mk 0 0 0) (1/4) 1) 1 1 (0, 0)).vo_normal =
      (((Vec3.mk 1 1 0) - (Vec3.mk 0 0 0)) +
        ((-(((Vec3.mk 1 0 0) - (Vec3.mk 0 0 0)).dot ((Vec3.mk 1 1 0) - (Vec3.mk 0 0 0)))
          - Real.sqrt
            (((Vec3.mk 1 0 0) - (Vec3.mk 0 0 0)).dot ((Vec3.mk 1 1 0) - (Vec3.mk 0 0 0)) *
              ((Vec3.mk 1 0 0) - (Vec3.mk 0 0 0)).dot ((Vec3.mk 1 1 0) - (Vec3.mk 0 0 0)) -
              ((Vec3.mk 1 0 0) - (Vec3.mk 0 0 0)).length_squared *
                (((Vec3.mk 1 1 0) - (Vec3.mk 0 0 0)).length_squared -
                  (((Vec3.mk 1 0 0) - (Vec3.mk 0 0 0)).cross
                    ((Vec3.mk 1 1 0) - (Vec3.mk 0 0 0))).length_squared /
                  (((Vec3.mk 1 0 0) - (Vec3.mk 0 0 0)).length_squared -
                    ((1:ℝ)/4 + 1/4) * ((1:ℝ)/4 + 1/4))))) /
          ((Vec3.mk 1 0 0) - (Vec3.mk 0 0 0)).length_squared) •
        ((Vec3.mk 1 0 0) - (Vec3.mk 0 0 0))).normalize_or_zero := by
  refine ⟨?_, ?_, ?_⟩
  · unfold Vec3.length_squared Vec3.dot
    simp only [Vec3.sub_x, Vec3.sub_y, Vec3.sub_z]
    norm_num
  · unfold Vec3.dot
    simp only [Vec3.sub_x, Vec3.sub_y, Vec3.sub_z, Vec3.divScalar_x, Vec3.divScalar_y,
      Vec3.divScalar_z]
    norm_num
  · exact (C6_cone_projection
      (Agent.mk (Vec3.mk 0 0 0) (Vec3.mk 1 1 0) (1/4) 1)
      (Agent.mk (Vec3.mk 1 0 0) (Vec3.mk 0 0 0) (1/4) 1) 1 1 (0, 0)
      _ _ ((1:ℝ)/4 + 1/4) _ _ _ _ rfl rfl rfl rfl rfl rfl rfl
      (by unfold Vec3.length_squared Vec3.dot
          simp only [Vec3.sub_x, Vec3.sub_y, Vec3.sub_z]
          norm_num)
      (by unfold Vec3.length_squared Vec3.dot
          simp only [Vec3.sub_x, Vec3.sub_y, Vec3.sub_z, Vec3.divScalar_x, Vec3.divScalar_y,
            Vec3.divScalar_z]
          norm_num)).1

/-- C7: whenever `D² ≤ R²` the builder uses the time-step-scaled cut-off
sphere: the projected point is `normal·(R/time_step) + p/time_step`, the
inside flag always holds, and consequently the emitted plane's point uses the
responsibility split rather than responsibility `1`. -/
theorem C7_overlap_time_step_sphere (self neighbour : Agent) (th ts : ℝ)
    (rand : ℝ × ℝ) (p v : Vec3) (R : ℝ)
    (hp : p = neighbour.position - self.position)
    (hv : v = self.velocity - neighbour.velocity)
    (hR : R = self.radius + neighbour.radius)
    (hD : p.length_squared ≤ R * R) :
    (voConstruction self neighbour th ts rand).inside_vo ∧
    (voConstruction self neighbour th ts rand).relative_velocity_projected_to_vo =
      (R / ts) • (voConstruction self neighbour th ts rand).vo_normal +
        p.divScalar ts ∧
    get_plane_for_neighbour self neighbour th ts rand = Plane.mk
      (self.velocity + (self.avoidance_responsibility /
          (self.avoidance_responsibility + neighbour.avoidance_responsibility)) •
        ((voConstruction self neighbour th ts rand).relative_velocity_projected_to_vo
          - v))
      (voConstruction self neighbour th ts rand).vo_normal := by
  subst hp hv hR
  have hchar := voConstruction_caseB_eq self neighbour th ts rand _ _ _ rfl rfl rfl
    (not_lt.2 hD)
  have htriv : (voConstruction self neighbour th ts rand).inside_vo := by
    rw [hchar]
    trivial
  refine ⟨htriv, ?_, ?_⟩
  · rw [hchar]
  · simp only [get_plane_for_neighbour]
    rw [if_pos htriv]

/-- Witness for C7 at a concrete overlapping pair. -/
theorem C7_overlap_time_step_sphere_witness :
    ((Vec3.mk 1 0 0) - (Vec3.mk 0 0 0)).length_squared ≤ ((1:ℝ) + 1) * ((1:ℝ) + 1) ∧
    (voConstruction (Agent.mk (Vec3.mk 0 0 0) (Vec3.mk 0 0 0) 1 1)
      (Agent.mk (Vec3.mk 1 0 0) (Vec3.mk 0 0 0) 1 1) 2 1 (0, 0)).inside_vo := by
  have hD : ((Vec3.mk 1 0 0) - (Vec3.mk 0 0 0)).length_squared ≤ ((1:ℝ) + 1) * ((1:ℝ) + 1) := by
    unfold Vec3.length_squared Vec3.dot
    simp only [Vec3.sub_x, Vec3.sub_y, Vec3.sub_z]
    norm_num
  exact ⟨hD, (C7_overlap_time_step_sphere
    (Agent.mk (Vec3.mk 0 0 0) (Vec3.mk 0 0 0) 1 1)
    (Agent.mk (Vec3.mk 1 0 0) (Vec3.mk 0 0 0) 1 1) 2 1 (0, 0)
    _ _ ((1:ℝ) + 1) rfl rfl rfl hD).1⟩

/-- C4: in the degenerate overlapping sub-case the fallback normal is the
direction formula `(cos(longitude)·√(1−z²), sin(longitude)·√(1−z²), z)`
applied to the two raw `rand::random::<f32>()` draws, which lie in `[0,1)`:
`z` is the unscaled first draw (never rescaled to `[−1,1]`) and `longitude`
the unscaled second draw (never rescaled to `[0,2π)`), so the z-component of
every emitted fallback direction lies in `[0,1)` instead of `[−1,1]`. -/
theorem C4_degenerate_draws_unscaled (self neighbour : Agent) (th ts : ℝ)
    (rand : ℝ × ℝ) (p v : Vec3) (R : ℝ)
    (hp : p = neighbour.position - self.position)
    (hv : v = self.velocity - neighbour.velocity)
    (hR : R = self.radius + neighbour.radius)
    (hD : p.length_squared ≤ R * R)
    (hdeg : v = p.divScalar ts)
    (hz0 : 0 ≤ rand.1) (hz1 : rand.1 < 1) :
    (voConstruction self neighbour th ts rand).vo_normal = Vec3.mk
      (Real.cos rand.2 * Real.sqrt (1 - rand.1 * rand.1))
      (Real.sin rand.2 * Real.sqrt (1 - rand.1 * rand.1)) rand.1 ∧
    0 ≤ (voConstruction self neighbour th ts rand).vo_normal.z ∧
    (voConstruction self neighbour th ts rand).vo_normal.z < 1 := by
  have hchar := voConstruction_caseB_eq self neighbour th ts rand p v R hp hv hR
    (not_lt.2 hD)
  have hvfc : v - p.divScalar ts = 0 := Vec3.sub_eq_zero_of_eq _ _ hdeg
  have hrec : ¬ 0 < (v - p.divScalar ts).length_recip := by
    rw [hvfc]
    unfold Vec3.length_recip Vec3.length
    rw [show (0 : Vec3).length_squared = 0 by
        unfold Vec3.length_squared Vec3.dot
        norm_num,
      Real.sqrt_zero, inv_zero]
    exact lt_irrefl 0
  have hn : (voConstruction self neighbour th ts rand).vo_normal = Vec3.mk
      (Real.cos rand.2 * Real.sqrt (1 - rand.1 * rand.1))
      (Real.sin rand.2 * Real.sqrt (1 - rand.1 * rand.1)) rand.1 := by
    rw [hchar]
    show (if 0 < (v - p.divScalar ts).length_recip then _ else _) = _
    rw [if_neg hrec]
  rw [hn]
  exact ⟨rfl, hz0, hz1⟩

/-- Witness for C4 at a concrete exactly-degenerate overlapping pair with
draws `(1/3, 1/2)`. -/
theorem C4_degenerate_draws_unscaled_witness :
    ((Vec3.mk 1 0 0) - (Vec3.mk 0 0 0)).length_squared ≤ ((1:ℝ) + 1) * ((1:ℝ) + 1) ∧
    (Vec3.mk 1 0 0) - (Vec3.mk 0 0 0) = ((Vec3.mk 1 0 0) - (Vec3.mk 0 0 0)).divScalar 1 ∧
    0 ≤ (voConstruction (Agent.mk (Vec3.mk 0 0 0) (Vec3.mk 1 0 0) 1 1)
      (Agent.mk (Vec3.mk 1 0 0) (Vec3.mk 0 0 0) 1 1) 1 1 ((1:ℝ)/3, 1/2)).vo_normal.z ∧
    (voConstruction (Agent.mk (Vec3.mk 0 0 0) (Vec3.mk 1 0 0) 1 1)
      (Agent.mk (Vec3.mk 1 0 0) (Vec3.mk 0 0 0) 1 1) 1 1 ((1:ℝ)/3, 1/2)).vo_normal.z < 1 := by
  have hD : ((Vec3.mk 1 0 0) - (Vec3.mk 0 0 0)).length_squared ≤ ((1:ℝ) + 1) * ((1:ℝ) + 1) := by
    unfold Vec3.length_squared Vec3.dot
    simp only [Vec3.sub_x, Vec3.sub_y, Vec3.sub_z]
    norm_num
  have hdeg : (Vec3.mk 1 0 0) - (Vec3.mk 0 0 0) =
      ((Vec3.mk 1 0 0) - (Vec3.mk 0 0 0)).divScalar 1 := by
    show Vec3.mk _ _ _ = Vec3.mk _ _ _
    simp only [Vec3.mk.injEq, Vec3.sub_x, Vec3.sub_y, Vec3.sub_z, Vec3.divScalar_x,
      Vec3.divScalar_y, Vec3.divScalar_z]
    norm_num
  have hmain := C4_degenerate_draws_unscaled
    (Agent.mk (Vec3.mk 0 0 0) (Vec3.mk 1 0 0) 1 1)
    (Agent.mk (Vec3.mk 1 0 0) (Vec3.mk 0 0 0) 1 1) 1 1 ((1:ℝ)/3, 1/2)
    _ _ ((1:ℝ) + 1) rfl rfl rfl hD hdeg (by norm_num) (by norm_num)
  exact ⟨hD, hdeg, hmain.2.1, hmain.2.2⟩

/-- C3 (amended): the plane's normal is a unit vector except in one case: in
the tangent-cone branch, when the vector being normalized,
`v + t·p`, is the zero vector, the zero-safe normalize emits the zero vector
(not a unit vector). -/
theorem C3_normal_unit_except_cone_zero (self neighbour : Agent) (th ts : ℝ)
    (rand : ℝ × ℝ) (p v : Vec3) (R t : ℝ)
    (hp : p = neighbour.position - self.position)
    (hv : v = self.velocity - neighbour.velocity)
    (hR : R = self.radius + neighbour.radius)
    (ht : t = (-(p.dot v) - Real.sqrt (p.dot v * p.dot v -
      p.length_squared * (v.length_squared -
        (p.cross v).length_squared / (p.length_squared - R * R)))) / p.length_squared)
    (hth : 0 < th) (hts : 0 < ts) (hz0 : 0 ≤ rand.1) (hz1 : rand.1 < 1) :
    (get_plane_for_neighbour self neighbour th ts rand).normal.length = 1 ∨
      ((get_plane_for_neighbour self neighbour th ts rand).normal = 0 ∧
        v + t • p = 0) := by
  have hnormal : (get_plane_for_neighbour self neighbour th ts rand).normal =
      (voConstruction self neighbour th ts rand).vo_normal := rfl
  rw [hnormal]
  by_cases hD : R * R < p.length_squared
  · by_cases hring : ((v - p.divScalar th).dot p < 0 ∧
        R * R * (v - p.divScalar th).length_squared <
          (v - p.divScalar th).dot p * (v - p.divScalar th).dot p)
    · left
      have hn : (voConstruction self neighbour th ts rand).vo_normal =
          (v - p.divScalar th).normalize_or_zero := by
        rw [voConstruction_sphere_eq self neighbour th ts rand p v R hp hv hR hD
          hring.1 hring.2]
      rw [hn]
      apply Vec3.length_normalize_or_zero
      rcases lt_or_eq_of_le (Vec3.length_squared_nonneg (v - p.divScalar th)) with h | h
      · exact h
      · exfalso
        have h0 : v - p.divScalar th = 0 :=
          (Vec3.length_squared_eq_zero_iff _).1 h.symm
        have hd := hring.1
        rw [h0] at hd
        simp at hd
    · have hn : (voConstruction self neighbour th ts rand).vo_normal =
          (v + t • p).normalize_or_zero := by
        rw [voConstruction_cone_eq self neighbour th ts rand p v R t hp hv hR ht hD hring]
      rw [hn]
      by_cases hcv : 0 < (v + t • p).length_squared
      · left
        exact Vec3.length_normalize_or_zero _ hcv
      · right
        have h0 : (v + t • p).length_squared = 0 :=
          le_antisymm (not_lt.1 hcv) (Vec3.length_squared_nonneg _)
        exact ⟨Vec3.normalize_or_zero_of_length_squared_eq_zero _ h0,
          (Vec3.length_squared_eq_zero_iff _).1 h0⟩
  · left
    subst hp hv hR
    exact caseB_vo_normal_length self neighbour th ts rand hD hz0 hz1.le

/-- Counterexample to C3 as stated: with the self agent at the origin moving
at `(2,0,0)`, a stationary neighbour at `(1,0,0)`, radii `1/4` each and
`time_horizon = time_step = 1`, the cone branch fires, `t = −2`, the vector
being normalized is `v + t·p = 0`, and the emitted normal is the zero vector,
whose length is `0`, not `1`. -/
theorem C3_counterexample :
    ¬ ((get_plane_for_neighbour (Agent.mk (Vec3.mk 0 0 0) (Vec3.mk 2 0 0) (1/4) 1)
        (Agent.mk (Vec3.mk 1 0 0) (Vec3.mk 0 0 0) (1/4) 1) 1 1
        ((0:ℝ), (0:ℝ))).normal.length = 1) := by
  have hp : Vec3.mk 1 0 0 = (Vec3.mk 1 0 0) - (Vec3.mk 0 0 0) := by
    show Vec3.mk _ _ _ = Vec3.mk _ _ _
    simp only [Vec3.mk.injEq, Vec3.sub_x, Vec3.sub_y, Vec3.sub_z]
    norm_num
  have hv : Vec3.mk 2 0 0 = (Vec3.mk 2 0 0) - (Vec3.mk 0 0 0) := by
    show Vec3.mk _ _ _ = Vec3.mk _ _ _
    simp only [Vec3.mk.injEq, Vec3.sub_x, Vec3.sub_y, Vec3.sub_z]
    norm_num
  have hR : (1:ℝ)/2 = 1/4 + 1/4 := by norm_num
  have ht : (-2 : ℝ) = (-((Vec3.mk 1 0 0).dot (Vec3.mk 2 0 0)) -
      Real.sqrt ((Vec3.mk 1 0 0).dot (Vec3.mk 2 0 0) *
          (Vec3.mk 1 0 0).dot (Vec3.mk 2 0 0) -
        (Vec3.mk 1 0 0).length_squared * ((Vec3.mk 2 0 0).length_squared -
          ((Vec3.mk 1 0 0).cross (Vec3.mk 2 0 0)).length_squared /
            ((Vec3.mk 1 0 0).length_squared - (1:ℝ)/2 * ((1:ℝ)/2))))) /
      (Vec3.mk 1 0 0).length_squared := by
    unfold Vec3.length_squared Vec3.dot Vec3.cross
    norm_num
  have hD : (1:ℝ)/2 * ((1:ℝ)/2) < (Vec3.mk 1 0 0).length_squared := by
    unfold Vec3.length_squared Vec3.dot
    norm_num
  have hnring : ¬ (((Vec3.mk 2 0 0) - (Vec3.mk 1 0 0).divScalar 1).dot (Vec3.mk 1 0 0) < 0 ∧
      (1:ℝ)/2 * ((1:ℝ)/2) * ((Vec3.mk 2 0 0) - (Vec3.mk 1 0 0).divScalar 1).length_squared <
        ((Vec3.mk 2 0 0) - (Vec3.mk 1 0 0).divScalar 1).dot (Vec3.mk 1 0 0) *
          ((Vec3.mk 2 0 0) - (Vec3.mk 1 0 0).divScalar 1).dot (Vec3.mk 1 0 0)) := by
    unfold Vec3.length_squared Vec3.dot
    simp only [Vec3.sub_x, Vec3.sub_y, Vec3.sub_z, Vec3.divScalar_x, Vec3.divScalar_y,
      Vec3.divScalar_z]
    norm_num
  have hchar := voConstruction_cone_eq
    (Agent.mk (Vec3.mk 0 0 0) (Vec3.mk 2 0 0) (1/4) 1)
    (Agent.mk (Vec3.mk 1 0 0) (Vec3.mk 0 0 0) (1/4) 1) 1 1 ((0:ℝ), (0:ℝ))
    (Vec3.mk 1 0 0) (Vec3.mk 2 0 0) ((1:ℝ)/2) (-2) hp hv hR ht hD hnring
  have hcv : (Vec3.mk 2 0 0) + (-2 : ℝ) • (Vec3.mk 1 0 0) = 0 := by
    show Vec3.mk _ _ _ = Vec3.mk 0 0 0
    simp only [Vec3.mk.injEq, Vec3.add_x, Vec3.add_y, Vec3.add_z, Vec3.smul_x, Vec3.smul_y,
      Vec3.smul_z]
    norm_num
  have hn : (get_plane_for_neighbour (Agent.mk (Vec3.mk 0 0 0) (Vec3.mk 2 0 0) (1/4) 1)
      (Agent.mk (Vec3.mk 1 0 0) (Vec3.mk 0 0 0) (1/4) 1) 1 1 ((0:ℝ), (0:ℝ))).normal =
      ((Vec3.mk 2 0 0) + (-2 : ℝ) • (Vec3.mk 1 0 0)).normalize_or_zero := by
    show (voConstruction (Agent.mk (Vec3.mk 0 0 0) (Vec3.mk 2 0 0) (1/4) 1)
      (Agent.mk (Vec3.mk 1 0 0) (Vec3.mk 0 0 0) (1/4) 1) 1 1 ((0:ℝ), (0:ℝ))).vo_normal = _
    rw [hchar]
  rw [hn, hcv, Vec3.normalize_or_zero_of_length_squared_eq_zero _ (by
    unfold Vec3.length_squared Vec3.dot
    simp only [Vec3.zero_x, Vec3.zero_y, Vec3.zero_z]
    norm_num)]
  unfold Vec3.length
  rw [show (0 : Vec3).length_squared = 0 by
    unfold Vec3.length_squared Vec3.dot
    simp only [Vec3.zero_x, Vec3.zero_y, Vec3.zero_z]
    norm_num]
  rw [Real.sqrt_zero]
  norm_num

/-- Witness for the amended C3 at a concrete degenerate overlapping pair. -/
theorem C3_normal_unit_except_cone_zero_witness :
    (0:ℝ) < 1 ∧ 0 ≤ (0:ℝ) ∧
    ((get_plane_for_neighbour (Agent.mk (Vec3.mk 0 0 0) (Vec3.mk 1 0 0) 1 1)
        (Agent.mk (Vec3.mk 1 0 0) (Vec3.mk 0 0 0) 1 1) 1 1
        ((0:ℝ), (0:ℝ))).normal.length = 1 ∨
      ((get_plane_for_neighbour (Agent.mk (Vec3.mk 0 0 0) (Vec3.mk 1 0 0) 1 1)
          (Agent.mk (Vec3.mk 1 0 0) (Vec3.mk 0 0 0) 1 1) 1 1
          ((0:ℝ), (0:ℝ))).normal = 0 ∧
        ((Vec3.mk 1 0 0) - (Vec3.mk 0 0 0)) +
          (-1 : ℝ) • ((Vec3.mk 1 0 0) - (Vec3.mk 0 0 0)) = 0)) := by
  refine ⟨by norm_num, by norm_num, ?_⟩
  exact C3_normal_unit_except_cone_zero
    (Agent.mk (Vec3.mk 0 0 0) (Vec3.mk 1 0 0) 1 1)
    (Agent.mk (Vec3.mk 1 0 0) (Vec3.mk 0 0 0) 1 1) 1 1 ((0:ℝ), (0:ℝ))
    _ _ ((1:ℝ) + 1) (-1) rfl rfl rfl
    (by unfold Vec3.length_squared Vec3.dot Vec3.cross
        simp only [Vec3.sub_x, Vec3.sub_y, Vec3.sub_z]
        norm_num)
    (by norm_num) (by norm_num) (by norm_num) (by norm_num)

/-- C1: for every self agent, neighbour list (empty or not), preferred
velocity, `max_speed ≥ 0`, `time_horizon > 0` and `time_step > 0`, the
velocity returned by `compute_avoiding_velocity` has magnitude at most
`max_speed`. -/
theorem C1_magnitude_at_most_max_speed (self : Agent) (neighbours : List Agent)
    (preferred_velocity : Vec3) (max_speed time_step : ℝ) (opts : AvoidanceOptions)
    (rng : ℕ → ℝ × ℝ) (v : Vec3)
    (hms : 0 ≤ max_speed) (hth : 0 < opts.time_horizon) (hts : 0 < time_step)
    (hv : compute_avoiding_velocity self neighbours preferred_velocity max_speed
      time_step opts rng = some v) :
    v.length ≤ max_speed := by
  unfold compute_avoiding_velocity at hv
  rw [if_pos hts] at hv
  have hveq : v = solve_linear_program
      (neighbours.enum.map fun ni =>
        get_plane_for_neighbour self ni.2 opts.time_horizon time_step (rng ni.1))
      max_speed preferred_velocity :=
    (Option.some_inj.1 hv).symm
  rw [hveq]
  exact length_le_of_inSpeedSphere _ _ hms
    (solve_linear_program_inSpeedSphere _ _ _ hms)

/-- Witness for C1: an agent with no neighbours, zero preferred velocity and
`max_speed = 1` gets the zero velocity, of magnitude at most `1`. -/
theorem C1_magnitude_at_most_max_speed_witness :
    (0:ℝ) ≤ 1 ∧ (0:ℝ) < 1 ∧
    compute_avoiding_velocity (Agent.mk (Vec3.mk 0 0 0) (Vec3.mk 0 0 0) 1 1) []
      (Vec3.mk 0 0 0) 1 1 (AvoidanceOptions.mk 1) (fun _ => (0, 0)) =
      some (Vec3.mk 0 0 0) ∧
    (Vec3.mk 0 0 0).length ≤ 1 := by
  have hl2 : (Vec3.mk (0:ℝ) 0 0).length_squared = 0 := by
    unfold Vec3.length_squared Vec3.dot
    norm_num
  have hclamp : clampToSphere (Vec3.mk 0 0 0) 1 = Vec3.mk 0 0 0 := by
    unfold clampToSphere
    rw [if_neg]
    rw [hl2]
    norm_num
  have hcomp : compute_avoiding_velocity (Agent.mk (Vec3.mk 0 0 0) (Vec3.mk 0 0 0) 1 1) []
      (Vec3.mk 0 0 0) 1 1 (AvoidanceOptions.mk 1) (fun _ => (0, 0)) =
      some (Vec3.mk 0 0 0) := by
    unfold compute_avoiding_velocity
    rw [if_pos (by norm_num : (0:ℝ) < 1)]
    unfold solve_linear_program
    simp only [List.enum_nil, List.map_nil, List.foldl_nil, hclamp]
  refine ⟨by norm_num, by norm_num, hcomp, ?_⟩
  exact C1_magnitude_at_most_max_speed (Agent.mk (Vec3.mk 0 0 0) (Vec3.mk 0 0 0) 1 1) []
    (Vec3.mk 0 0 0) 1 1 (AvoidanceOptions.mk 1) (fun _ => (0, 0)) (Vec3.mk 0 0 0)
    (by norm_num) (by norm_num) (by norm_num) hcomp

/-- C9: for an agent exactly overlapping a neighbour (`D² ≤ R²`) with
relative velocity exactly equal to the time-step-scaled cut-off-sphere
center, every call with valid inputs still returns a defined velocity of
magnitude at most `max_speed`, and the plane built for that neighbour has a
well-formed unit normal (in the exact-arithmetic embedding, definedness and
the magnitude bound are the non-NaN/finiteness guarantees). -/
theorem C9_degenerate_overlap_defined_and_bounded (self neighbour : Agent)
    (pref : Vec3) (ms ts th : ℝ) (rng : ℕ → ℝ × ℝ) (p v : Vec3) (R : ℝ)
    (hp : p = neighbour.position - self.position)
    (hv : v = self.velocity - neighbour.velocity)
    (hR : R = self.radius + neighbour.radius)
    (hms : 0 ≤ ms) (hts : 0 < ts) (hth : 0 < th)
    (hz0 : 0 ≤ (rng 0).1) (hz1 : (rng 0).1 < 1)
    (hD : p.length_squared ≤ R * R)
    (hdeg : v = p.divScalar ts) :
    ∃ w, compute_avoiding_velocity self [neighbour] pref ms ts
        (AvoidanceOptions.mk th) rng = some w ∧
      w.length ≤ ms ∧
      (get_plane_for_neighbour self neighbour th ts (rng 0)).normal.length = 1 := by
  subst hp hv hR
  refine ⟨solve_linear_program
    (([neighbour].enum).map fun ni =>
      get_plane_for_neighbour self ni.2 th ts (rng ni.1)) ms pref, ?_, ?_, ?_⟩
  · unfold compute_avoiding_velocity
    rw [if_pos hts]
  · exact length_le_of_inSpeedSphere _ _ hms
      (solve_linear_program_inSpeedSphere _ _ _ hms)
  · show (voConstruction self neighbour th ts (rng 0)).vo_normal.length = 1
    exact caseB_vo_normal_length self neighbour th ts (rng 0) (not_lt.2 hD) hz0 hz1.le

/-- Witness for C9 at a concrete exactly-degenerate overlapping pair. -/
theorem C9_degenerate_overlap_defined_and_bounded_witness :
    ((Vec3.mk 1 0 0) - (Vec3.mk 0 0 0)).length_squared ≤ ((1:ℝ) + 1) * ((1:ℝ) + 1) ∧
    (Vec3.mk 1 0 0) - (Vec3.mk 0 0 0) =
      ((Vec3.mk 1 0 0) - (Vec3.mk 0 0 0)).divScalar 1 ∧
    ∃ w, compute_avoiding_velocity (Agent.mk (Vec3.mk 0 0 0) (Vec3.mk 1 0 0) 1 1)
        [Agent.mk (Vec3.mk 1 0 0) (Vec3.mk 0 0 0) 1 1] (Vec3.mk 0 0 0) 1 1
        (AvoidanceOptions.mk 1) (fun _ => (0, 0)) = some w ∧
      w.length ≤ 1 ∧
      (get_plane_for_neighbour (Agent.mk (Vec3.mk 0 0 0) (Vec3.mk 1 0 0) 1 1)
        (Agent.mk (Vec3.mk 1 0 0) (Vec3.mk 0 0 0) 1 1) 1 1 (0, 0)).normal.length = 1 := by
  have hD : ((Vec3.mk 1 0 0) - (Vec3.mk 0 0 0)).length_squared ≤
      ((1:ℝ) + 1) * ((1:ℝ) + 1) := by
    unfold Vec3.length_squared Vec3.dot
    simp only [Vec3.sub_x, Vec3.sub_y, Vec3.sub_z]
    norm_num
  have hdeg : (Vec3.mk 1 0 0) - (Vec3.mk 0 0 0) =
      ((Vec3.mk 1 0 0) - (Vec3.mk 0 0 0)).divScalar 1 := by
    show Vec3.mk _ _ _ = Vec3.mk _ _ _
    simp only [Vec3.mk.injEq, Vec3.sub_x, Vec3.sub_y, Vec3.sub_z, Vec3.divScalar_x,
      Vec3.divScalar_y, Vec3.divScalar_z]
    norm_num
  exact ⟨hD, hdeg, C9_degenerate_overlap_defined_and_bounded
    (Agent.mk (Vec3.mk 0 0 0) (Vec3.mk 1 0 0) 1 1)
    (Agent.mk (Vec3.mk 1 0 0) (Vec3.mk 0 0 0) 1 1) (Vec3.mk 0 0 0) 1 1 1
    (fun _ => (0, 0)) _ _ ((1:ℝ) + 1) rfl rfl rfl
    (by norm_num) (by norm_num) (by norm_num) (by norm_num) (by norm_num) hD hdeg⟩
